import Mathlib

/-!
Verification development for the kubectl-dashboard synchronization core.

The Rust sources are shallowly embedded:
* `src/k8s/resources.rs` — resource gateway projections and mutations.
  Network calls (`Api::list`, `Api::get`, `Api::create`, `Api::patch`) are
  modelled by passing the fetched Kubernetes objects (or the fallible result
  of establishing a client) as explicit arguments; the functions below
  compute exactly what the Rust code computes from those values.
  Timestamps are modelled at whole-second resolution as `Int` (chrono
  `DateTime<Utc>`; all arithmetic the code performs on them is in whole
  seconds), `BTreeMap<String, String>` as an association list.
* `src/k8s/client.rs` — the session (`K8sClient`) state and `switch_context`.
* `src/app.rs` — the `KubeDashboard` state, the `load_*` dispatch functions,
  `refresh_current_view`, the `handle_*_action` dispatchers, the
  `process_messages` drain step (one message at a time: `applyMessage`),
  `add_notification` and the notification retention of `show_notifications`.
  Spawning a background task is modelled by returning the list of spawned
  fetches (`FetchKind`) or background calls (`BackgroundCall`); the body of a
  spawned fetch task is `snapshotFetchTask`, mapping the session's optional
  connection and the fetch result to the list of messages the task sends.
  `Instant` timestamps of notifications are nanoseconds as `Nat`
  (`Instant::duration_since` saturates at zero, as `Nat` subtraction does).
-/

/-- Kubernetes `OwnerReference` (the fields `trigger_cronjob` sets). -/
structure OwnerReference where
  api_version : String
  kind : String
  name : String
  uid : String
  controller : Option Bool
  block_owner_deletion : Option Bool
deriving DecidableEq, Repr

/-- Kubernetes `ObjectMeta`, restricted to the fields this program reads or
writes.  `creation_timestamp` is seconds since the epoch.  Defaults model
`..Default::default()`. -/
structure ObjectMeta where
  name : Option String := none
  namespace_ : Option String := none
  labels : Option (List (String × String)) := none
  annotations : Option (List (String × String)) := none
  owner_references : Option (List OwnerReference) := none
  uid : Option String := none
  creation_timestamp : Option Int := none
deriving DecidableEq, Repr

/-- Kubernetes `JobSpec`: the program reads `completions` and otherwise
carries the spec wholesale (cloned, never inspected); the uninspected
remainder (pod template and the other fields) is carried opaquely in
`template_body`. -/
structure JobSpec where
  completions : Option Int := none
  template_body : String := ""
deriving DecidableEq, Repr

/-- Kubernetes `JobStatus` object (distinct from the app's derived
`JobStatus` enum below).  Times are seconds since the epoch. -/
structure JobStatusObject where
  succeeded : Option Int := none
  failed : Option Int := none
  active : Option Int := none
  start_time : Option Int := none
  completion_time : Option Int := none
deriving DecidableEq, Repr

/-- Kubernetes `Job` object. -/
structure Job where
  metadata : ObjectMeta := {}
  spec : Option JobSpec := none
  status : Option JobStatusObject := none
deriving DecidableEq, Repr

/-- Kubernetes `JobTemplateSpec` inside a CronJob spec. -/
structure JobTemplateSpec where
  metadata : Option ObjectMeta := none
  spec : Option JobSpec := none
deriving DecidableEq, Repr

/-- Kubernetes `CronJobSpec`, restricted to what the program reads. -/
structure CronJobSpec where
  schedule : String := ""
  suspend : Option Bool := none
  job_template : JobTemplateSpec := {}
deriving DecidableEq, Repr

/-- Kubernetes `CronJob` object (status omitted: `trigger_cronjob` and the
claims never read it). -/
structure CronJob where
  metadata : ObjectMeta := {}
  spec : Option CronJobSpec := none
deriving DecidableEq, Repr

/-- `format_age` from `resources.rs`: renders `now - created` (seconds) the
way chrono's `num_days`/`num_hours`/`num_minutes`/`num_seconds` truncate,
toward zero (`Int.tdiv`). -/
def format_age (now : Int) (creation_timestamp : Option Int) : String :=
  match creation_timestamp with
  | none => "Unknown"
  | some created =>
    let duration := now - created
    if 0 < duration.tdiv 86400 then toString (duration.tdiv 86400) ++ "d"
    else if 0 < duration.tdiv 3600 then toString (duration.tdiv 3600) ++ "h"
    else if 0 < duration.tdiv 60 then toString (duration.tdiv 60) ++ "m"
    else toString duration ++ "s"

/-- The app's derived job status (`JobStatus` enum in `resources.rs`). -/
inductive JobStatus where
  | Running
  | Succeeded
  | Failed
  | Pending
deriving DecidableEq, Repr

/-- `JobInfo` display projection from `resources.rs`. -/
structure JobInfo where
  name : String
  namespace_ : String
  completions : String
  duration : String
  age : String
  status : JobStatus
  owner : Option String
deriving DecidableEq, Repr

/-- The per-item projection inside `list_jobs` (`resources.rs` lines
553-596): completions string, derived status in priority order
succeeded/failed/active/pending, duration, age, and owner = name of the
first owner reference.  `now` is the `Utc::now()` the Rust code reads. -/
def jobInfoOf (now : Int) (j : Job) : JobInfo :=
  let spec := j.spec
  let status := j.status
  let completions :=
    toString ((status.bind JobStatusObject.succeeded).getD 0) ++ "/" ++
      toString ((spec.bind JobSpec.completions).getD 1)
  let job_status :=
    if 0 < (status.bind JobStatusObject.succeeded).getD 0 then JobStatus.Succeeded
    else if 0 < (status.bind JobStatusObject.failed).getD 0 then JobStatus.Failed
    else if 0 < (status.bind JobStatusObject.active).getD 0 then JobStatus.Running
    else JobStatus.Pending
  let duration :=
    match status.bind JobStatusObject.start_time with
    | none => "-"
    | some st =>
      let e := (status.bind JobStatusObject.completion_time).getD now
      toString (e - st) ++ "s"
  let owner := (j.metadata.owner_references.bind List.head?).map OwnerReference.name
  { name := j.metadata.name.getD ""
    namespace_ := j.metadata.namespace_.getD ""
    completions := completions
    duration := duration
    age := format_age now j.metadata.creation_timestamp
    status := job_status
    owner := owner }

/-- `list_jobs` over the items the control plane returned for the requested
namespace (the network list call is modelled by the `items` argument). -/
def list_jobs (now : Int) (items : List Job) : List JobInfo :=
  items.map (jobInfoOf now)

/-- `trigger_cronjob` from `resources.rs`: given the fetched parent CronJob,
the namespace, the parent's name and the current unix timestamp, constructs
the Job handed to `jobs.create` and returns it with the returned job name.
Fails when the CronJob has no spec (no job template). -/
def trigger_cronjob (cronjob : CronJob) (namespace_ cronjob_name : String)
    (nowTs : Int) : Except String (Job × String) :=
  match cronjob.spec with
  | none => Except.error "CronJob has no job template"
  | some s =>
    let job_template := s.job_template
    let job_name := cronjob_name ++ "-manual-" ++ toString nowTs
    let job : Job :=
      { metadata :=
          { name := some job_name
            namespace_ := some namespace_
            labels := job_template.metadata.bind ObjectMeta.labels
            annotations := job_template.metadata.bind ObjectMeta.annotations
            owner_references := some
              [{ api_version := "batch/v1"
                 kind := "CronJob"
                 name := cronjob_name
                 uid := cronjob.metadata.uid.getD ""
                 controller := some true
                 block_owner_deletion := some true }] }
        spec := job_template.spec
        status := none }
    Except.ok (job, job_name)

/-- `get_cronjob_history` from `resources.rs`: list the jobs of the
namespace and keep those whose derived `owner` equals the parent's name. -/
def get_cronjob_history (now : Int) (itemsInNamespace : List Job)
    (cronjob_name : String) : List JobInfo :=
  (list_jobs now itemsInNamespace).filter
    (fun j => (j.owner.map (fun o => o == cronjob_name)).getD false)

/-- An established control-plane connection handle (`kube::Client`); its
internals are never inspected by the code under study, so it is abstracted
to an identifier. -/
structure Client where
  id : Nat
deriving DecidableEq, Repr

/-- `ContextInfo` from `client.rs`. -/
structure ContextInfo where
  name : String
  cluster : String
  user : String
  namespace_ : Option String
deriving DecidableEq, Repr

/-- `ClientState` from `client.rs` (the state under the `RwLock` of
`K8sClient`).  The kubeconfig is carried as its list of context
descriptors, the only part the program reads. -/
structure ClientState where
  client : Option Client
  current_context : Option String
  kubeconfig : Option (List ContextInfo)
deriving DecidableEq, Repr

/-- `K8sClient::get_client`: non-blocking snapshot read of the connection. -/
def ClientState.get_client (st : ClientState) : Option Client :=
  st.client

/-- `K8sClient::switch_context` from `client.rs`: building the config and
client for the named context is a fallible external step, modelled by the
`newClient` argument.  On failure the function returns before taking the
write lock, so the state is untouched; on success, client and context name
are replaced together under the write lock. -/
def ClientState.switch_context (st : ClientState) (context_name : String)
    (newClient : Except String Client) : ClientState × Except String Unit :=
  match newClient with
  | Except.error e => (st, Except.error e)
  | Except.ok c =>
    ({ st with client := some c, current_context := some context_name },
      Except.ok ())

/-- The `View` enum from `app.rs`. -/
inductive View where
  | Deployments
  | Pods
  | Services
  | Config
  | Jobs
  | CronJobs
deriving DecidableEq, Repr

/-- `DeploymentInfo` from `resources.rs`. -/
structure DeploymentInfo where
  name : String
  namespace_ : String
  replicas : Int
  available : Int
  ready : Int
  updated : Int
  age : String
  images : List String
  labels : List (String × String)
deriving DecidableEq, Repr

/-- `ContainerInfo` from `resources.rs`. -/
structure ContainerInfo where
  name : String
  image : String
  ready : Bool
  restarts : Int
  state : String
deriving DecidableEq, Repr

/-- `PodInfo` from `resources.rs`. -/
structure PodInfo where
  name : String
  namespace_ : String
  status : String
  ready : String
  restarts : Int
  age : String
  node : String
  ip : String
  containers : List ContainerInfo
deriving DecidableEq, Repr

/-- `ServiceInfo` from `resources.rs`. -/
structure ServiceInfo where
  name : String
  namespace_ : String
  service_type : String
  cluster_ip : String
  external_ip : String
  ports : List String
  age : String
  selector : List (String × String)
deriving DecidableEq, Repr

/-- `IngressInfo` from `resources.rs`. -/
structure IngressInfo where
  name : String
  namespace_ : String
  hosts : List String
  paths : List String
  age : String
deriving DecidableEq, Repr

/-- `ConfigMapInfo` from `resources.rs`. -/
structure ConfigMapInfo where
  name : String
  namespace_ : String
  data_count : Nat
  age : String
  data : List (String × String)
deriving DecidableEq, Repr

/-- `SecretInfo` from `resources.rs`. -/
structure SecretInfo where
  name : String
  namespace_ : String
  secret_type : String
  data_count : Nat
  age : String
  data_keys : List String
deriving DecidableEq, Repr

/-- `CronJobInfo` from `resources.rs`. -/
structure CronJobInfo where
  name : String
  namespace_ : String
  schedule : String
  suspend : Bool
  active : Int
  last_schedule : Option String
  age : String
deriving DecidableEq, Repr

/-- A notification entry (`Notification` in `app.rs`); `timestamp` is the
`Instant` of creation in nanoseconds. -/
structure Notification where
  message : String
  is_error : Bool
  timestamp : Nat
deriving DecidableEq, Repr

/-- The mutable state of `KubeDashboard` (`app.rs`), without the runtime,
client and channel handles (the spawning and draining they provide are
modelled by the functions below) and without pure presentation state.
`pods_view_logs_content` / `pods_view_logs_loading` are the `PodsView`
fields behind `set_logs` / `set_logs_loading`; `cronjobs_view_history` the
`CronJobsView` field behind `set_history`. -/
structure AppState where
  current_view : View
  selected_namespace : Option String
  namespaces : List String
  contexts : List ContextInfo
  current_context : Option String
  initialized : Bool
  init_error : Option String
  deployments : List DeploymentInfo
  pods : List PodInfo
  services : List ServiceInfo
  ingresses : List IngressInfo
  configmaps : List ConfigMapInfo
  secrets : List SecretInfo
  jobs : List JobInfo
  cronjobs : List CronJobInfo
  loading_deployments : Bool
  loading_pods : Bool
  loading_services : Bool
  loading_config : Bool
  loading_jobs : Bool
  loading_cronjobs : Bool
  error_deployments : Option String
  error_pods : Option String
  error_services : Option String
  error_config : Option String
  error_jobs : Option String
  error_cronjobs : Option String
  pods_view_logs_content : String
  pods_view_logs_loading : Bool
  cronjobs_view_history : List JobInfo
  notifications : List Notification
deriving DecidableEq, Repr

/-- The state `KubeDashboard::new` builds (before it spawns the initialize
task): everything empty, view `Deployments`. -/
def initialState : AppState :=
  { current_view := View.Deployments
    selected_namespace := none
    namespaces := []
    contexts := []
    current_context := none
    initialized := false
    init_error := none
    deployments := []
    pods := []
    services := []
    ingresses := []
    configmaps := []
    secrets := []
    jobs := []
    cronjobs := []
    loading_deployments := false
    loading_pods := false
    loading_services := false
    loading_config := false
    loading_jobs := false
    loading_cronjobs := false
    error_deployments := none
    error_pods := none
    error_services := none
    error_config := none
    error_jobs := none
    error_cronjobs := none
    pods_view_logs_content := ""
    pods_view_logs_loading := false
    cronjobs_view_history := []
    notifications := [] }

/-- Decidable equality for `Except`, so concrete message-level facts can be
settled by evaluation. -/
instance exceptDecidableEq {ε α : Type} [DecidableEq ε] [DecidableEq α] :
    DecidableEq (Except ε α) := fun a b =>
  match a, b with
  | Except.ok x, Except.ok y =>
    if h : x = y then isTrue (by rw [h])
    else isFalse (fun hh => by cases hh; exact h rfl)
  | Except.ok _, Except.error _ => isFalse (fun hh => by cases hh)
  | Except.error _, Except.ok _ => isFalse (fun hh => by cases hh)
  | Except.error x, Except.error y =>
    if h : x = y then isTrue (by rw [h])
    else isFalse (fun hh => by cases hh; exact h rfl)

/-- `AppMessage` from `app.rs` (`Result<T, String>` as `Except String T`). -/
inductive AppMessage where
  | Initialized (r : Except String Unit)
  | ContextsLoaded (contexts : List ContextInfo) (current : Option String)
  | NamespacesLoaded (ns : List String)
  | ContextSwitched (r : Except String Unit)
  | DeploymentsLoaded (r : Except String (List DeploymentInfo))
  | PodsLoaded (r : Except String (List PodInfo))
  | ServicesLoaded (r : Except String (List ServiceInfo))
  | IngressesLoaded (r : Except String (List IngressInfo))
  | ConfigMapsLoaded (r : Except String (List ConfigMapInfo))
  | SecretsLoaded (r : Except String (List SecretInfo))
  | JobsLoaded (r : Except String (List JobInfo))
  | CronJobsLoaded (r : Except String (List CronJobInfo))
  | PodLogsLoaded (r : Except String String)
  | CronJobHistoryLoaded (r : Except String (List JobInfo))
  | ActionCompleted (r : Except String String)
deriving DecidableEq, Repr

/-- The kinds a background fetch can be spawned for (one per `load_*`
function of `app.rs`). -/
inductive FetchKind where
  | deployments
  | pods
  | services
  | ingresses
  | configmaps
  | secrets
  | jobs
  | cronjobs
deriving DecidableEq, Repr

/-- `load_deployments`: set the loading flag, clear the error, spawn one
background fetch. -/
def load_deployments (s : AppState) : AppState × List FetchKind :=
  ({ s with loading_deployments := true, error_deployments := none },
    [FetchKind.deployments])

/-- `load_pods`. -/
def load_pods (s : AppState) : AppState × List FetchKind :=
  ({ s with loading_pods := true, error_pods := none }, [FetchKind.pods])

/-- `load_services`. -/
def load_services (s : AppState) : AppState × List FetchKind :=
  ({ s with loading_services := true, error_services := none },
    [FetchKind.services])

/-- `load_ingresses`: spawns the fetch but touches no loading flag and no
error field. -/
def load_ingresses (s : AppState) : AppState × List FetchKind :=
  (s, [FetchKind.ingresses])

/-- `load_configmaps`. -/
def load_configmaps (s : AppState) : AppState × List FetchKind :=
  ({ s with loading_config := true, error_config := none },
    [FetchKind.configmaps])

/-- `load_secrets`: spawns the fetch but touches no loading flag and no
error field. -/
def load_secrets (s : AppState) : AppState × List FetchKind :=
  (s, [FetchKind.secrets])

/-- `load_jobs`. -/
def load_jobs (s : AppState) : AppState × List FetchKind :=
  ({ s with loading_jobs := true, error_jobs := none }, [FetchKind.jobs])

/-- `load_cronjobs`. -/
def load_cronjobs (s : AppState) : AppState × List FetchKind :=
  ({ s with loading_cronjobs := true, error_cronjobs := none },
    [FetchKind.cronjobs])

/-- `refresh_current_view` from `app.rs`: dispatch the fetch(es) of the
current view only. -/
def refresh_current_view (s : AppState) : AppState × List FetchKind :=
  match s.current_view with
  | View.Deployments => load_deployments s
  | View.Pods => load_pods s
  | View.Services =>
    let p1 := load_services s
    let p2 := load_ingresses p1.1
    (p2.1, p1.2 ++ p2.2)
  | View.Config =>
    let p1 := load_configmaps s
    let p2 := load_secrets p1.1
    (p2.1, p1.2 ++ p2.2)
  | View.Jobs => load_jobs s
  | View.CronJobs => load_cronjobs s

/-- The fetch kinds `refresh_current_view` dispatches for each view. -/
def viewKinds : View → List FetchKind
  | View.Deployments => [FetchKind.deployments]
  | View.Pods => [FetchKind.pods]
  | View.Services => [FetchKind.services, FetchKind.ingresses]
  | View.Config => [FetchKind.configmaps, FetchKind.secrets]
  | View.Jobs => [FetchKind.jobs]
  | View.CronJobs => [FetchKind.cronjobs]

/-- `add_notification` from `app.rs` (`now` is the `Instant::now()` read at
the push, in nanoseconds). -/
def add_notification (s : AppState) (now : Nat) (message : String)
    (is_error : Bool) : AppState :=
  { s with notifications := s.notifications ++
      [{ message := message, is_error := is_error, timestamp := now }] }

/-- `PodsView::set_logs`. -/
def set_logs (s : AppState) (logs : String) : AppState :=
  { s with pods_view_logs_content := logs, pods_view_logs_loading := false }

/-- `PodsView::set_logs_loading`. -/
def set_logs_loading (s : AppState) : AppState :=
  { s with pods_view_logs_loading := true }

/-- `CronJobsView::set_history`. -/
def set_history (s : AppState) (jobs : List JobInfo) : AppState :=
  { s with cronjobs_view_history := jobs }

/-- One iteration of the `process_messages` drain loop of `app.rs`: apply a
single received message to the state.  Returns the new state and the
background fetches the handler dispatched (via `refresh_current_view`).
`now` is the instant (nanoseconds) read by any `add_notification` the
handler performs. -/
def applyMessage (now : Nat) (s : AppState) (m : AppMessage) :
    AppState × List FetchKind :=
  match m with
  | AppMessage.Initialized r =>
    match r with
    | Except.ok _ => refresh_current_view { s with initialized := true }
    | Except.error e => ({ s with init_error := some e }, [])
  | AppMessage.ContextsLoaded contexts current =>
    ({ s with contexts := contexts, current_context := current }, [])
  | AppMessage.NamespacesLoaded ns => ({ s with namespaces := ns }, [])
  | AppMessage.ContextSwitched r =>
    match r with
    | Except.ok _ =>
      refresh_current_view
        (add_notification s now "Context switched successfully" false)
    | Except.error e =>
      (add_notification s now ("Failed to switch context: " ++ e) true, [])
  | AppMessage.DeploymentsLoaded r =>
    match r with
    | Except.ok v =>
      ({ s with loading_deployments := false, deployments := v }, [])
    | Except.error e =>
      ({ s with loading_deployments := false, error_deployments := some e }, [])
  | AppMessage.PodsLoaded r =>
    match r with
    | Except.ok v => ({ s with loading_pods := false, pods := v }, [])
    | Except.error e =>
      ({ s with loading_pods := false, error_pods := some e }, [])
  | AppMessage.ServicesLoaded r =>
    match r with
    | Except.ok v => ({ s with loading_services := false, services := v }, [])
    | Except.error e =>
      ({ s with loading_services := false, error_services := some e }, [])
  | AppMessage.IngressesLoaded r =>
    match r with
    | Except.ok v => ({ s with ingresses := v }, [])
    | Except.error e => ({ s with error_services := some e }, [])
  | AppMessage.ConfigMapsLoaded r =>
    match r with
    | Except.ok v => ({ s with loading_config := false, configmaps := v }, [])
    | Except.error e =>
      ({ s with loading_config := false, error_config := some e }, [])
  | AppMessage.SecretsLoaded r =>
    match r with
    | Except.ok v => ({ s with secrets := v }, [])
    | Except.error e => ({ s with error_config := some e }, [])
  | AppMessage.JobsLoaded r =>
    match r with
    | Except.ok v => ({ s with loading_jobs := false, jobs := v }, [])
    | Except.error e =>
      ({ s with loading_jobs := false, error_jobs := some e }, [])
  | AppMessage.CronJobsLoaded r =>
    match r with
    | Except.ok v => ({ s with loading_cronjobs := false, cronjobs := v }, [])
    | Except.error e =>
      ({ s with loading_cronjobs := false, error_cronjobs := some e }, [])
  | AppMessage.PodLogsLoaded r =>
    match r with
    | Except.ok logs => (set_logs s logs, [])
    | Except.error e => (set_logs s ("Error: " ++ e), [])
  | AppMessage.CronJobHistoryLoaded r =>
    match r with
    | Except.ok jobs => (set_history s jobs, [])
    | Except.error e =>
      (set_history
        (add_notification s now ("Failed to load history: " ++ e) true) [], [])
  | AppMessage.ActionCompleted r =>
    match r with
    | Except.ok msg =>
      refresh_current_view (add_notification s now msg false)
    | Except.error e =>
      (add_notification s now ("Error: " ++ e) true, [])

/-- The resource kinds that own a `(items, loading, lastError)` snapshot in
`KubeDashboard` (one per loading flag; ingresses and secrets feed the
`services` / `config` snapshots and have no flag of their own). -/
inductive Kind where
  | deployments
  | pods
  | services
  | config
  | jobs
  | cronjobs
deriving DecidableEq, Repr

/-- The item type of each snapshot kind. -/
def ItemsOf : Kind → Type
  | Kind.deployments => List DeploymentInfo
  | Kind.pods => List PodInfo
  | Kind.services => List ServiceInfo
  | Kind.config => List ConfigMapInfo
  | Kind.jobs => List JobInfo
  | Kind.cronjobs => List CronJobInfo

instance (k : Kind) : DecidableEq (ItemsOf k) := by
  cases k <;> exact inferInstanceAs (DecidableEq (List _))

/-- The items of kind `k` in the dashboard state. -/
def itemsOf (s : AppState) : (k : Kind) → ItemsOf k
  | Kind.deployments => s.deployments
  | Kind.pods => s.pods
  | Kind.services => s.services
  | Kind.config => s.configmaps
  | Kind.jobs => s.jobs
  | Kind.cronjobs => s.cronjobs

/-- The loading flag of kind `k`. -/
def loadingOf (s : AppState) : Kind → Bool
  | Kind.deployments => s.loading_deployments
  | Kind.pods => s.loading_pods
  | Kind.services => s.loading_services
  | Kind.config => s.loading_config
  | Kind.jobs => s.loading_jobs
  | Kind.cronjobs => s.loading_cronjobs

/-- The last error of kind `k`. -/
def errorOf (s : AppState) : Kind → Option String
  | Kind.deployments => s.error_deployments
  | Kind.pods => s.error_pods
  | Kind.services => s.error_services
  | Kind.config => s.error_config
  | Kind.jobs => s.error_jobs
  | Kind.cronjobs => s.error_cronjobs

/-- The `load_*` function of kind `k`: how a fetch request for `k` is
dispatched. -/
def dispatchFetch (s : AppState) : Kind → AppState × List FetchKind
  | Kind.deployments => load_deployments s
  | Kind.pods => load_pods s
  | Kind.services => load_services s
  | Kind.config => load_configmaps s
  | Kind.jobs => load_jobs s
  | Kind.cronjobs => load_cronjobs s

/-- The `Outcome` message a background fetch for kind `k` sends. -/
def fetchOutcomeMsg : (k : Kind) → Except String (ItemsOf k) → AppMessage
  | Kind.deployments, r => AppMessage.DeploymentsLoaded r
  | Kind.pods, r => AppMessage.PodsLoaded r
  | Kind.services, r => AppMessage.ServicesLoaded r
  | Kind.config, r => AppMessage.ConfigMapsLoaded r
  | Kind.jobs, r => AppMessage.JobsLoaded r
  | Kind.cronjobs, r => AppMessage.CronJobsLoaded r

/-- The body of the background task each `load_*` spawns (`app.rs`):
`if let Some(c) = client.get_client().await { ...send one Loaded message... }`.
Given the session's connection at the time the task runs and the result of
the gateway call, this is the list of messages the task sends. -/
def snapshotFetchTask (k : Kind) (conn : Option Client)
    (result : Except String (ItemsOf k)) : List AppMessage :=
  match conn with
  | some _ => [fetchOutcomeMsg k result]
  | none => []

/-- The six list-snapshot loading flags of the dashboard, bundled. -/
def loadFlags (s : AppState) : Bool × Bool × Bool × Bool × Bool × Bool :=
  (s.loading_deployments, s.loading_pods, s.loading_services,
    s.loading_config, s.loading_jobs, s.loading_cronjobs)

/-- `DeploymentAction` from `views/deployments.rs`. -/
inductive DeploymentAction where
  | Scale (ns name : String) (replicas : Int)
  | Restart (ns name : String)
  | Delete (ns name : String)
deriving DecidableEq, Repr

/-- `PodAction` from `views/pods.rs`. -/
inductive PodAction where
  | Delete (ns name : String)
  | GetLogs (ns name : String) (container : Option String) (tail_lines : Int)
deriving DecidableEq, Repr

/-- `ConfigAction` from `views/config.rs`. -/
inductive ConfigAction where
  | UpdateConfigMap (ns name : String) (data : List (String × String))
deriving DecidableEq, Repr

/-- `JobAction` from `views/jobs.rs`. -/
inductive JobAction where
  | Delete (ns name : String)
deriving DecidableEq, Repr

/-- `CronJobAction` from `views/cronjobs.rs`. -/
inductive CronJobAction where
  | Trigger (ns name : String)
  | Suspend (ns name : String) (suspend : Bool)
  | GetHistory (ns name : String)
deriving DecidableEq, Repr

/-- One background gateway call spawned by an action handler of `app.rs`. -/
inductive BackgroundCall where
  | scaleDeployment (ns name : String) (replicas : Int)
  | restartDeployment (ns name : String)
  | deleteDeployment (ns name : String)
  | deletePod (ns name : String)
  | getPodLogs (ns name : String) (container : Option String) (tail_lines : Int)
  | updateConfigMap (ns name : String) (data : List (String × String))
  | deleteJob (ns name : String)
  | triggerCronJob (ns name : String)
  | suspendCronJob (ns name : String) (suspend : Bool)
  | getCronJobHistory (ns name : String)
deriving DecidableEq, Repr

/-- `handle_deployment_action` from `app.rs`: spawn the one mutate call;
the dashboard state is untouched. -/
def handle_deployment_action (s : AppState) (action : DeploymentAction) :
    AppState × List BackgroundCall :=
  match action with
  | DeploymentAction.Scale ns name replicas =>
    (s, [BackgroundCall.scaleDeployment ns name replicas])
  | DeploymentAction.Restart ns name =>
    (s, [BackgroundCall.restartDeployment ns name])
  | DeploymentAction.Delete ns name =>
    (s, [BackgroundCall.deleteDeployment ns name])

/-- `handle_pod_action` from `app.rs`: `Delete` spawns the mutate call;
`GetLogs` additionally calls `PodsView::set_logs_loading` before spawning
the log fetch. -/
def handle_pod_action (s : AppState) (action : PodAction) :
    AppState × List BackgroundCall :=
  match action with
  | PodAction.Delete ns name => (s, [BackgroundCall.deletePod ns name])
  | PodAction.GetLogs ns name container tail_lines =>
    (set_logs_loading s,
      [BackgroundCall.getPodLogs ns name container tail_lines])

/-- `handle_config_action` from `app.rs`. -/
def handle_config_action (s : AppState) (action : ConfigAction) :
    AppState × List BackgroundCall :=
  match action with
  | ConfigAction.UpdateConfigMap ns name data =>
    (s, [BackgroundCall.updateConfigMap ns name data])

/-- `handle_job_action` from `app.rs`. -/
def handle_job_action (s : AppState) (action : JobAction) :
    AppState × List BackgroundCall :=
  match action with
  | JobAction.Delete ns name => (s, [BackgroundCall.deleteJob ns name])

/-- `handle_cronjob_action` from `app.rs`. -/
def handle_cronjob_action (s : AppState) (action : CronJobAction) :
    AppState × List BackgroundCall :=
  match action with
  | CronJobAction.Trigger ns name =>
    (s, [BackgroundCall.triggerCronJob ns name])
  | CronJobAction.Suspend ns name suspend =>
    (s, [BackgroundCall.suspendCronJob ns name suspend])
  | CronJobAction.GetHistory ns name =>
    (s, [BackgroundCall.getCronJobHistory ns name])

/-- The context-selector click in `show_sidebar` (`app.rs` lines 741-747):
set `current_context` to the clicked name, then spawn the context switch.
Returns the new state and the context name handed to the spawned
`switch_context` task. -/
def sidebar_select_context (s : AppState) (name : String) :
    AppState × String :=
  ({ s with current_context := some name }, name)

/-- The body of the task `KubeDashboard::switch_context` spawns (`app.rs`
lines 190-208): on client-level success, send `ContextSwitched(Ok)` and, if
listing namespaces succeeds, `NamespacesLoaded`; on failure, send only
`ContextSwitched(Err)`. -/
def switch_context_task (switchResult : Except String Unit)
    (nsResult : Except String (List String)) : List AppMessage :=
  match switchResult with
  | Except.ok _ =>
    [AppMessage.ContextSwitched (Except.ok ())] ++
      (match nsResult with
       | Except.ok ns => [AppMessage.NamespacesLoaded ns]
       | Except.error _ => [])
  | Except.error e => [AppMessage.ContextSwitched (Except.error e)]

/-- The retention step of `show_notifications` (`app.rs` lines 844-846):
drop every notification whose age, truncated to whole seconds
(`Duration::as_secs`), is at least 5; the loop that follows renders exactly
the retained list.  `now` is the `Instant::now()` of the tick in
nanoseconds. -/
def show_notifications (now : Nat) (s : AppState) : AppState :=
  let kept := s.notifications.filter
    (fun n => decide ((now - n.timestamp) / 1000000000 < 5))
  { s with notifications := kept }

/-- A concrete dashboard state for the context-switch scenario: initialized,
with `old-context` active. -/
def c3App : AppState :=
  { initialState with initialized := true, current_context := some "old-context" }

/-- A concrete session state for the context-switch scenario: a working
connection for `old-context`. -/
def c3Session : ClientState :=
  { client := some { id := 0 }, current_context := some "old-context",
    kubeconfig := none }

/-- A concrete CronJob for the trigger scenario of the spec
(`trigger(CronJob="nightly", ns="batch")`). -/
def nightlySpec : CronJobSpec :=
  { schedule := "0 0 * * *"
    suspend := none
    job_template :=
      { metadata := some { labels := some [("app", "nightly")] }
        spec := some { completions := some 1, template_body := "nightly-pod" } } }

/-- The CronJob object carrying `nightlySpec`. -/
def nightlyCronJob : CronJob :=
  { metadata :=
      { name := some "nightly"
        namespace_ := some "batch"
        uid := some "uid-nightly" }
    spec := some nightlySpec }

/-- The run resource `trigger_cronjob` constructs for `nightlyCronJob` at
unix timestamp 1700000000. -/
def nightlyRun : Job :=
  { metadata :=
      { name := some "nightly-manual-1700000000"
        namespace_ := some "batch"
        labels := some [("app", "nightly")]
        annotations := none
        owner_references := some
          [{ api_version := "batch/v1"
             kind := "CronJob"
             name := "nightly"
             uid := "uid-nightly"
             controller := some true
             block_owner_deletion := some true }]
        uid := none
        creation_timestamp := none }
    spec := some { completions := some 1, template_body := "nightly-pod" }
    status := none }

/-- C1: for every snapshot kind K, dispatching a fetch sets K's loading
flag and clears its lastError; a successful Outcome for K clears loading
and replaces K's items wholesale; a failed Outcome for K clears loading,
records the error and leaves K's items unchanged. -/
theorem fetch_snapshot_state_machine (now : Nat) (s : AppState) (k : Kind) :
    (loadingOf (dispatchFetch s k).1 k = true ∧
     errorOf (dispatchFetch s k).1 k = none) ∧
    (∀ items : ItemsOf k,
      loadingOf (applyMessage now s (fetchOutcomeMsg k (Except.ok items))).1 k
          = false ∧
      itemsOf (applyMessage now s (fetchOutcomeMsg k (Except.ok items))).1 k
          = items) ∧
    (∀ e : String,
      loadingOf (applyMessage now s (fetchOutcomeMsg k (Except.error e))).1 k
          = false ∧
      errorOf (applyMessage now s (fetchOutcomeMsg k (Except.error e))).1 k
          = some e ∧
      itemsOf (applyMessage now s (fetchOutcomeMsg k (Except.error e))).1 k
          = itemsOf s k) := by
  cases k <;>
    simp [dispatchFetch, loadingOf, errorOf, itemsOf, applyMessage,
      fetchOutcomeMsg, load_deployments, load_pods, load_services,
      load_configmaps, load_jobs, load_cronjobs]

/-- C2 (counterexample): a background fetch spawned while the session's
connection is `None` emits no Outcome at all — not exactly one — even
though the dispatch left the kind's loading flag set. -/
theorem fetch_task_without_connection_emits_nothing :
    snapshotFetchTask Kind.deployments none (Except.ok []) = [] ∧
    ((snapshotFetchTask Kind.deployments none (Except.ok [])).length == 1)
        = false ∧
    loadingOf (dispatchFetch initialState Kind.deployments).1 Kind.deployments
        = true := by
  refine ⟨rfl, rfl, rfl⟩

/-- C2 (amended): when the session holds a connection, the spawned fetch
task emits exactly one Outcome for its kind, and draining that Outcome
clears the loading flag set at dispatch; when the connection is `None` the
task emits nothing (a silent no-op) and the flag stays set until some later
fetch completes. -/
theorem fetch_task_single_outcome (k : Kind) (c : Client)
    (r : Except String (ItemsOf k)) (now : Nat) (s : AppState) :
    snapshotFetchTask k (some c) r = [fetchOutcomeMsg k r] ∧
    (snapshotFetchTask k (some c) r).length = 1 ∧
    loadingOf (applyMessage now s (fetchOutcomeMsg k r)).1 k = false ∧
    snapshotFetchTask k none r = [] := by
  refine ⟨rfl, rfl, ?_, rfl⟩
  cases k <;> cases r <;>
    simp [applyMessage, fetchOutcomeMsg, loadingOf]

/-- C3 (counterexample): after a failed context switch the session still
returns the previous working handle, but the dashboard's recorded
active-context name is not unchanged — the sidebar click set it to the
requested name before the switch was attempted, and the failure handler
does not restore it. -/
theorem failed_switch_changes_recorded_context :
    (ClientState.switch_context c3Session "missing-context"
        (Except.error "ConnectError")).1 = c3Session ∧
    (ClientState.switch_context c3Session "missing-context"
        (Except.error "ConnectError")).1.get_client = some { id := 0 } ∧
    c3App.current_context = some "old-context" ∧
    (applyMessage 0 (sidebar_select_context c3App "missing-context").1
        (AppMessage.ContextSwitched (Except.error "ConnectError"))).1.current_context
      = some "missing-context" ∧
    ((applyMessage 0 (sidebar_select_context c3App "missing-context").1
        (AppMessage.ContextSwitched (Except.error "ConnectError"))).1.current_context
      == c3App.current_context) = false := by
  refine ⟨rfl, rfl, rfl, rfl, by decide⟩

/-- C3 (amended): a failed switch leaves the session exactly as before —
`currentConnection()` still returns the previous handle and the session's
recorded context is untouched — and handling the failure outcome only adds
an error notification and dispatches no fetch; the spawned task sends only
the failure message.  The dashboard's own selected-context field, however,
is set to the requested name at click time and is not reverted. -/
theorem failed_switch_preserves_session (cs : ClientState) (name e : String)
    (nsResult : Except String (List String)) (now : Nat) (s : AppState) :
    ClientState.switch_context cs name (Except.error e)
      = (cs, Except.error e) ∧
    (ClientState.switch_context cs name (Except.error e)).1.get_client
      = cs.get_client ∧
    switch_context_task (Except.error e) nsResult
      = [AppMessage.ContextSwitched (Except.error e)] ∧
    applyMessage now s (AppMessage.ContextSwitched (Except.error e))
      = (add_notification s now ("Failed to switch context: " ++ e) true,
          []) ∧
    (sidebar_select_context s name).1.current_context = some name := by
  exact ⟨rfl, rfl, rfl, rfl, rfl⟩

/-- C4: a successful mutate completion adds a notification-level message
and dispatches exactly the current view's fetch kinds (and no other
view's); a failed completion adds an error notification and dispatches
nothing; and the only message handlers that dispatch any fetch are
initialize success, context-switch success and mutate success — so
mutate success is the sole mutation outcome that causes a fetch. -/
theorem mutate_completion_refresh (now : Nat) (s : AppState) (msg e : String) :
    (applyMessage now s (AppMessage.ActionCompleted (Except.ok msg))).2
      = viewKinds s.current_view ∧
    (applyMessage now s (AppMessage.ActionCompleted (Except.ok msg))).1.notifications
      = s.notifications ++
          [{ message := msg, is_error := false, timestamp := now }] ∧
    applyMessage now s (AppMessage.ActionCompleted (Except.error e))
      = (add_notification s now ("Error: " ++ e) true, []) ∧
    (∀ m : AppMessage,
      (applyMessage now s m).2 = [] ∨
      (∃ u, m = AppMessage.Initialized (Except.ok u)) ∨
      (∃ u, m = AppMessage.ContextSwitched (Except.ok u)) ∨
      (∃ t, m = AppMessage.ActionCompleted (Except.ok t))) := by
  refine ⟨?_, ?_, rfl, ?_⟩
  · cases hv : s.current_view <;>
      simp [applyMessage, refresh_current_view, viewKinds, add_notification,
        hv, load_deployments, load_pods, load_services, load_ingresses,
        load_configmaps, load_secrets, load_jobs, load_cronjobs]
  · cases hv : s.current_view <;>
      simp [applyMessage, refresh_current_view, add_notification, hv,
        load_deployments, load_pods, load_services, load_ingresses,
        load_configmaps, load_secrets, load_jobs, load_cronjobs]
  · intro m
    cases m with
    | Initialized r =>
      cases r with
      | ok u => exact Or.inr (Or.inl ⟨u, rfl⟩)
      | error _ => exact Or.inl rfl
    | ContextsLoaded _ _ => exact Or.inl rfl
    | NamespacesLoaded _ => exact Or.inl rfl
    | ContextSwitched r =>
      cases r with
      | ok u => exact Or.inr (Or.inr (Or.inl ⟨u, rfl⟩))
      | error _ => exact Or.inl rfl
    | DeploymentsLoaded r => cases r <;> exact Or.inl rfl
    | PodsLoaded r => cases r <;> exact Or.inl rfl
    | ServicesLoaded r => cases r <;> exact Or.inl rfl
    | IngressesLoaded r => cases r <;> exact Or.inl rfl
    | ConfigMapsLoaded r => cases r <;> exact Or.inl rfl
    | SecretsLoaded r => cases r <;> exact Or.inl rfl
    | JobsLoaded r => cases r <;> exact Or.inl rfl
    | CronJobsLoaded r => cases r <;> exact Or.inl rfl
    | PodLogsLoaded r => cases r <;> exact Or.inl rfl
    | CronJobHistoryLoaded r => cases r <;> exact Or.inl rfl
    | ActionCompleted r =>
      cases r with
      | ok t => exact Or.inr (Or.inr (Or.inr ⟨t, rfl⟩))
      | error _ => exact Or.inl rfl

/-- C5: the derived job status resolves in priority order — positive
succeeded count gives `Succeeded`, else positive failed count gives
`Failed`, else positive active count gives `Running`, else `Pending` — for
every element the list operation returns; in particular a job with
`succeeded = 1` and `active = 1` derives `Succeeded`, not `Running`. -/
theorem job_status_priority (now : Int) (items : List Job) (j : Job) :
    (jobInfoOf now j).status =
      (if 0 < (j.status.bind JobStatusObject.succeeded).getD 0 then
        JobStatus.Succeeded
       else if 0 < (j.status.bind JobStatusObject.failed).getD 0 then
        JobStatus.Failed
       else if 0 < (j.status.bind JobStatusObject.active).getD 0 then
        JobStatus.Running
       else JobStatus.Pending) ∧
    (list_jobs now items).map JobInfo.status
      = items.map (fun jj => (jobInfoOf now jj).status) ∧
    (jobInfoOf 0
        { status := some { succeeded := some 1, active := some 1 } }).status
      = JobStatus.Succeeded := by
  refine ⟨rfl, ?_, by decide⟩
  simp [list_jobs, List.map_map, Function.comp]

/-- C6: triggering a CronJob constructs the run from the parent's job
template — name `{parent}-manual-{unixTimestamp}`, namespace as requested,
labels and annotations cloned from the template's metadata, spec cloned
from the template's spec — and attaches an owner reference to the parent
with kind `CronJob`, the parent's name, `controller = true` and
`blockOwnerDeletion = true`; a CronJob without a template fails. -/
theorem trigger_cronjob_constructs_run (meta : ObjectMeta)
    (cjs : CronJobSpec) (ns parent : String) (ts : Int) :
    (∃ job : Job,
      trigger_cronjob { metadata := meta, spec := some cjs } ns parent ts
          = Except.ok (job, parent ++ "-manual-" ++ toString ts) ∧
      job.metadata.name = some (parent ++ "-manual-" ++ toString ts) ∧
      job.metadata.namespace_ = some ns ∧
      job.spec = cjs.job_template.spec ∧
      job.metadata.labels = cjs.job_template.metadata.bind ObjectMeta.labels ∧
      job.metadata.annotations
        = cjs.job_template.metadata.bind ObjectMeta.annotations ∧
      job.metadata.owner_references = some
        [{ api_version := "batch/v1"
           kind := "CronJob"
           name := parent
           uid := meta.uid.getD ""
           controller := some true
           block_owner_deletion := some true }]) ∧
    trigger_cronjob { metadata := meta, spec := none } ns parent ts
      = Except.error "CronJob has no job template" ∧
    (∃ job : Job,
      trigger_cronjob nightlyCronJob "batch" "nightly" 1700000000
          = Except.ok (job, "nightly-manual-1700000000") ∧
      job.metadata.owner_references = some
        [{ api_version := "batch/v1"
           kind := "CronJob"
           name := "nightly"
           uid := "uid-nightly"
           controller := some true
           block_owner_deletion := some true }]) := by
  refine ⟨⟨_, rfl, rfl, rfl, rfl, rfl, rfl, rfl⟩, rfl,
    ⟨nightlyRun, by decide, by decide⟩⟩

/-- C7: the history of a parent is exactly the jobs fetched from the
namespace whose derived owner (the first owner reference's name) equals the
parent's name — every run owned by the parent is included, every run owned
by a different parent (or ownerless) is excluded. -/
theorem cronjob_history_owner_filter (now : Int) (items : List Job)
    (parent : String) (info : JobInfo) :
    info ∈ get_cronjob_history now items parent ↔
      info ∈ list_jobs now items ∧ info.owner = some parent := by
  unfold get_cronjob_history
  rw [List.mem_filter]
  refine and_congr_right (fun _ => ?_)
  cases h : info.owner <;> simp [h]

/-- C8: every action handler spawns exactly one background call and leaves
every list-snapshot loading flag unchanged; the one exception to the
"no view state touched" rule is the interactive log-streaming intent
(`GetLogs`), which sets the pods view's dedicated logs-loading boolean —
a flag separate from every list snapshot's. -/
theorem mutate_dispatch_preserves_loading (s : AppState) :
    (∀ a : DeploymentAction,
      loadFlags (handle_deployment_action s a).1 = loadFlags s ∧
      (handle_deployment_action s a).1.pods_view_logs_loading
        = s.pods_view_logs_loading ∧
      (handle_deployment_action s a).2.length = 1) ∧
    (∀ a : ConfigAction,
      loadFlags (handle_config_action s a).1 = loadFlags s ∧
      (handle_config_action s a).1.pods_view_logs_loading
        = s.pods_view_logs_loading ∧
      (handle_config_action s a).2.length = 1) ∧
    (∀ a : JobAction,
      loadFlags (handle_job_action s a).1 = loadFlags s ∧
      (handle_job_action s a).1.pods_view_logs_loading
        = s.pods_view_logs_loading ∧
      (handle_job_action s a).2.length = 1) ∧
    (∀ a : CronJobAction,
      loadFlags (handle_cronjob_action s a).1 = loadFlags s ∧
      (handle_cronjob_action s a).1.pods_view_logs_loading
        = s.pods_view_logs_loading ∧
      (handle_cronjob_action s a).2.length = 1) ∧
    (∀ a : PodAction,
      loadFlags (handle_pod_action s a).1 = loadFlags s ∧
      (handle_pod_action s a).2.length = 1) ∧
    (∀ ns name : String,
      handle_pod_action s (PodAction.Delete ns name)
        = (s, [BackgroundCall.deletePod ns name])) ∧
    (∀ (ns name : String) (container : Option String) (tail_lines : Int),
      handle_pod_action s (PodAction.GetLogs ns name container tail_lines)
        = (set_logs_loading s,
            [BackgroundCall.getPodLogs ns name container tail_lines])) ∧
    (set_logs_loading s).pods_view_logs_loading = true ∧
    loadFlags (set_logs_loading s) = loadFlags s := by
  refine ⟨?_, ?_, ?_, ?_, ?_, fun _ _ => rfl, fun _ _ _ _ => rfl, rfl, rfl⟩ <;>
    intro a <;> cases a <;>
      simp [handle_deployment_action, handle_config_action, handle_job_action,
        handle_cronjob_action, handle_pod_action, set_logs_loading, loadFlags]

/-- C9: the retention step run on every tick keeps a notification exactly
when its wall-clock age is under the fixed 5-second window, so anything
strictly older than 5 seconds is absent from the tick's rendered set and
anything strictly younger is retained (the code drops a notification whose
age is exactly 5.000000000 seconds, which the boundary leaves
implementation-defined). -/
theorem notification_retention (now : Nat) (s : AppState)
    (n : Notification) :
    n ∈ (show_notifications now s).notifications ↔
      n ∈ s.notifications ∧ now - n.timestamp < 5 * 1000000000 := by
  simp only [show_notifications, List.mem_filter, decide_eq_true_eq]
  exact and_congr_right
    (fun _ => Nat.div_lt_iff_lt_mul (by norm_num))

/-- C10: dispatching the ingress or secret fetch changes no dashboard
state at all (no loading flag, no error field); a successful ingress or
secret Outcome only replaces the respective items; a failed one only
overwrites the services (resp. config) snapshot's lastError — whatever was
recorded there — and flips no loading flag; and the services (resp.
config) loading flag, once set, is cleared by no message other than the
services (resp. configmaps) Outcome. -/
theorem ingress_secret_side_channel (now : Nat) (s : AppState) (e : String)
    (ings : List IngressInfo) (secs : List SecretInfo) :
    (load_ingresses s).1 = s ∧
    (load_secrets s).1 = s ∧
    (applyMessage now s (AppMessage.IngressesLoaded (Except.ok ings))).1
      = { s with ingresses := ings } ∧
    (applyMessage now s (AppMessage.IngressesLoaded (Except.error e))).1
      = { s with error_services := some e } ∧
    (applyMessage now s (AppMessage.SecretsLoaded (Except.ok secs))).1
      = { s with secrets := secs } ∧
    (applyMessage now s (AppMessage.SecretsLoaded (Except.error e))).1
      = { s with error_config := some e } ∧
    (∀ m : AppMessage,
      (applyMessage now s m).1.loading_services = true ∨
      s.loading_services = false ∨
      ∃ r, m = AppMessage.ServicesLoaded r) ∧
    (∀ m : AppMessage,
      (applyMessage now s m).1.loading_config = true ∨
      s.loading_config = false ∨
      ∃ r, m = AppMessage.ConfigMapsLoaded r) := by
  refine ⟨rfl, rfl, rfl, rfl, rfl, rfl, ?_, ?_⟩
  · intro m
    cases hb : s.loading_services with
    | false => exact Or.inr (Or.inl rfl)
    | true =>
      cases m with
      | ServicesLoaded r => exact Or.inr (Or.inr ⟨r, rfl⟩)
      | Initialized r =>
        refine Or.inl ?_
        cases r with
        | ok u =>
          cases hv : s.current_view <;>
            simp [applyMessage, refresh_current_view, hv, hb,
              load_deployments, load_pods, load_services, load_ingresses,
              load_configmaps, load_secrets, load_jobs, load_cronjobs]
        | error _ => simpa [applyMessage] using hb
      | ContextSwitched r =>
        refine Or.inl ?_
        cases r with
        | ok u =>
          cases hv : s.current_view <;>
            simp [applyMessage, refresh_current_view, add_notification, hv,
              hb, load_deployments, load_pods, load_services, load_ingresses,
              load_configmaps, load_secrets, load_jobs, load_cronjobs]
        | error _ => simpa [applyMessage, add_notification] using hb
      | ActionCompleted r =>
        refine Or.inl ?_
        cases r with
        | ok t =>
          cases hv : s.current_view <;>
            simp [applyMessage, refresh_current_view, add_notification, hv,
              hb, load_deployments, load_pods, load_services, load_ingresses,
              load_configmaps, load_secrets, load_jobs, load_cronjobs]
        | error _ => simpa [applyMessage, add_notification] using hb
      | ContextsLoaded _ _ => exact Or.inl (by simpa [applyMessage] using hb)
      | NamespacesLoaded _ => exact Or.inl (by simpa [applyMessage] using hb)
      | DeploymentsLoaded r =>
        exact Or.inl (by cases r <;> simpa [applyMessage] using hb)
      | PodsLoaded r =>
        exact Or.inl (by cases r <;> simpa [applyMessage] using hb)
      | IngressesLoaded r =>
        exact Or.inl (by cases r <;> simpa [applyMessage] using hb)
      | ConfigMapsLoaded r =>
        exact Or.inl (by cases r <;> simpa [applyMessage] using hb)
      | SecretsLoaded r =>
        exact Or.inl (by cases r <;> simpa [applyMessage] using hb)
      | JobsLoaded r =>
        exact Or.inl (by cases r <;> simpa [applyMessage] using hb)
      | CronJobsLoaded r =>
        exact Or.inl (by cases r <;> simpa [applyMessage] using hb)
      | PodLogsLoaded r =>
        exact Or.inl (by cases r <;> simpa [applyMessage, set_logs] using hb)
      | CronJobHistoryLoaded r =>
        exact Or.inl (by cases r <;>
          simpa [applyMessage, set_history, add_notification] using hb)
  · intro m
    cases hb : s.loading_config with
    | false => exact Or.inr (Or.inl rfl)
    | true =>
      cases m with
      | ConfigMapsLoaded r => exact Or.inr (Or.inr ⟨r, rfl⟩)
      | Initialized r =>
        refine Or.inl ?_
        cases r with
        | ok u =>
          cases hv : s.current_view <;>
            simp [applyMessage, refresh_current_view, hv, hb,
              load_deployments, load_pods, load_services, load_ingresses,
              load_configmaps, load_secrets, load_jobs, load_cronjobs]
        | error _ => simpa [applyMessage] using hb
      | ContextSwitched r =>
        refine Or.inl ?_
        cases r with
        | ok u =>
          cases hv : s.current_view <;>
            simp [applyMessage, refresh_current_view, add_notification, hv,
              hb, load_deployments, load_pods, load_services, load_ingresses,
              load_configmaps, load_secrets, load_jobs, load_cronjobs]
        | error _ => simpa [applyMessage, add_notification] using hb
      | ActionCompleted r =>
        refine Or.inl ?_
        cases r with
        | ok t =>
          cases hv : s.current_view <;>
            simp [applyMessage, refresh_current_view, add_notification, hv,
              hb, load_deployments, load_pods, load_services, load_ingresses,
              load_configmaps, load_secrets, load_jobs, load_cronjobs]
        | error _ => simpa [applyMessage, add_notification] using hb
      | ContextsLoaded _ _ => exact Or.inl (by simpa [applyMessage] using hb)
      | NamespacesLoaded _ => exact Or.inl (by simpa [applyMessage] using hb)
      | DeploymentsLoaded r =>
        exact Or.inl (by cases r <;> simpa [applyMessage] using hb)
      | PodsLoaded r =>
        exact Or.inl (by cases r <;> simpa [applyMessage] using hb)
      | ServicesLoaded r =>
        exact Or.inl (by cases r <;> simpa [applyMessage] using hb)
      | IngressesLoaded r =>
        exact Or.inl (by cases r <;> simpa [applyMessage] using hb)
      | SecretsLoaded r =>
        exact Or.inl (by cases r <;> simpa [applyMessage] using hb)
      | JobsLoaded r =>
        exact Or.inl (by cases r <;> simpa [applyMessage] using hb)
      | CronJobsLoaded r =>
        exact Or.inl (by cases r <;> simpa [applyMessage] using hb)
      | PodLogsLoaded r =>
        exact Or.inl (by cases r <;> simpa [applyMessage, set_logs] using hb)
      | CronJobHistoryLoaded r =>
        exact Or.inl (by cases r <;>
          simpa [applyMessage, set_history, add_notification] using hb)
